import Mathlib


/-!
Shallow embedding of `scripts/generate_questions.py`: a batch script that
generates placeholder multiple-choice question banks from a manifest.

Modelling conventions:
* Python `int` is `Int`, Python `float` is `PyFloat`, an unreduced fraction of
  integers with positive denominator, with exact rational arithmetic.  All
  numeric literals of the script are dyadic or decimal rationals and every
  value a claim evaluates is exactly representable, so exact arithmetic agrees
  with IEEE doubles at those points.
* The process-global `random` module is modelled by `Rng`, a stream of raw
  natural-number draws together with a position; each primitive of the module
  consumes one draw, exactly in the order the script consumes entropy.
  CPython's `random.random()` returns `k / 2^53` for a 53-bit `k`; we model it
  by reducing the raw draw mod `2^53`.  `randint`/`shuffle` are built on
  `_randbelow n`, modelled by reducing the raw draw mod `n`.
* Python strings are `String`; manipulation is implemented over `String.data`
  (`List Char`) so that everything reduces in the kernel.
-/

/-! ## Python floats as exact fractions -/

/-- Exact fraction standing for a Python `float`.  Not normalised; every
constructor and operation keeps `den` positive, and only value-level
operations (comparison, floor, printing) are ever applied, so normalisation
is unnecessary. -/
structure PyFloat where
  num : Int
  den : Int
deriving DecidableEq

/-- The integer `z` as a float. -/
def PyFloat.ofInt (z : Int) : PyFloat := ⟨z, 1⟩

def PyFloat.add (a b : PyFloat) : PyFloat := ⟨a.num * b.den + b.num * a.den, a.den * b.den⟩

def PyFloat.sub (a b : PyFloat) : PyFloat := ⟨a.num * b.den - b.num * a.den, a.den * b.den⟩

def PyFloat.mul (a b : PyFloat) : PyFloat := ⟨a.num * b.num, a.den * b.den⟩

/-- Division, keeping the denominator positive (the script never divides by
zero or by a negative value, but we fix the sign anyway). -/
def PyFloat.div (a b : PyFloat) : PyFloat :=
  if b.num < 0 then ⟨-(a.num * b.den), -(a.den * b.num)⟩ else ⟨a.num * b.den, a.den * b.num⟩

/-- Value-level strict order on fractions (denominators positive). -/
def PyFloat.lt (a b : PyFloat) : Bool := a.num * b.den < b.num * a.den

/-- Value-level equality test on fractions (denominators positive). -/
def PyFloat.beqv (a b : PyFloat) : Bool := a.num * b.den == b.num * a.den

def PyFloat.abs (a : PyFloat) : PyFloat := ⟨a.num.natAbs, a.den⟩

/-- `math.floor` on an exact fraction. -/
def PyFloat.floor (a : PyFloat) : Int := Int.fdiv a.num a.den

/-- Truncation toward zero, Python's `int(x)` on a float. -/
def PyFloat.trunc (a : PyFloat) : Int :=
  if a.num < 0 then -(Int.fdiv (-a.num) a.den) else Int.fdiv a.num a.den

/-- Round half to even to an integer, Python's `round(x)`. -/
def pyRoundInt (x : PyFloat) : Int :=
  let n := x.floor
  let frac := x.sub (PyFloat.ofInt n)
  let half : PyFloat := ⟨1, 2⟩
  if frac.lt half then n
  else if half.lt frac then n + 1
  else if n % 2 = 0 then n else n + 1

/-- Python's `round(x, k)` for `k ≥ 0` digits: round half to even at the
`k`-th decimal place, returning a float. -/
def pyRound (x : PyFloat) (k : Nat) : PyFloat :=
  let p : Int := (10 : Int) ^ k
  ⟨pyRoundInt (x.mul ⟨p, 1⟩), p⟩

/-- Decimal digits of a fraction in `[0,1)`, most significant first, stopping
when the remainder is zero; `fuel` bounds the number of digits (all floats the
script prints have been rounded to at most 6 decimal places first). -/
def fracDigits (x : PyFloat) (fuel : Nat) : List Char :=
  match fuel with
  | 0 => []
  | fuel + 1 =>
    if x.num = 0 then []
    else
      let x10 := x.mul ⟨10, 1⟩
      let d := x10.floor
      Nat.digitChar d.toNat :: fracDigits (x10.sub (PyFloat.ofInt d)) fuel

/-- Decimal digits of a natural number, `fuel`-bounded recursion on the
quotient by 10. -/
def natDigits (n : Nat) (fuel : Nat) : List Char :=
  match fuel with
  | 0 => []
  | fuel + 1 =>
    if n < 10 then [Nat.digitChar n]
    else natDigits (n / 10) fuel ++ [Nat.digitChar (n % 10)]

/-- Python `str` of an `int`. -/
def pyStrInt (z : Int) : String :=
  if z < 0 then String.mk ('-' :: natDigits z.natAbs 64) else String.mk (natDigits z.toNat 64)

/-- Python `str` of a `float`, as plain decimal notation with at least one
fractional digit (`2.0`, `0.5`).  This models CPython's `repr` for every value
the claims evaluate; it does not reproduce the scientific notation CPython
switches to below `1e-4`, which only affects explanation text in a branch no
claim inspects. -/
def pyStrFloat (x : PyFloat) : String :=
  let sign := if x.num * x.den < 0 then "-" else ""
  let a := x.abs
  let ip := a.floor
  let fp := a.sub (PyFloat.ofInt ip)
  let fracs := if fp.num = 0 then ['0'] else fracDigits fp 40
  sign ++ String.mk (natDigits ip.toNat 64) ++ "." ++ String.mk fracs

/-! ## Python string helpers over `List Char` -/

/-- Python `str.lower`, restricted to ASCII as in Lean's `Char.toLower`; every
character the claims exercise is ASCII. -/
def pyLowerChar (c : Char) : Char := Char.toLower c

/-- `startsWithL pat l` is Python `l.startswith(pat)` on character lists. -/
def startsWithL : List Char → List Char → Bool
  | [], _ => true
  | _ :: _, [] => false
  | p :: ps, c :: cs => p == c && startsWithL ps cs

/-- `subject.lower().startswith(pat)` on strings. -/
def lowerStartsWith (s : String) (pat : String) : Bool :=
  startsWithL pat.data (s.data.map pyLowerChar)

/-- ASCII whitespace recognised by Python `str.strip()`. -/
def pyIsSpace (c : Char) : Bool :=
  c == ' ' || c == '\t' || c == '\n' || c == '\x0d' || c == '\x0b' || c == '\x0c'

/-- Python `str.strip()`: drop leading and trailing whitespace. -/
def pyStrip (s : String) : String :=
  String.mk (((s.data.dropWhile pyIsSpace).reverse.dropWhile pyIsSpace).reverse)

/-- Python `s.split(',')` on character lists: split at every comma, keeping
empty pieces. -/
def splitCommaL : List Char → List (List Char)
  | [] => [[]]
  | c :: cs =>
    match splitCommaL cs with
    | [] => if c == ',' then [[], []] else [[c]]
    | h :: t => if c == ',' then [] :: h :: t else (c :: h) :: t

/-- Python `s.split(',')` on strings. -/
def splitComma (s : String) : List String :=
  (splitCommaL s.data).map String.mk

/-! ## `slug` and `make_id` -/

/-- Character class `[a-z0-9]`, the complement of what the regex
`[^a-z0-9]+` in `slug` matches. -/
def isLowerAlnum (c : Char) : Bool :=
  ('a' ≤ c && c ≤ 'z') || ('0' ≤ c && c ≤ '9')

/-- `re.sub(r'[^a-z0-9]+', '-', ·)`: replace every maximal run of characters
outside `[a-z0-9]` by a single hyphen.  The flag records whether we are inside
such a run (its hyphen already emitted). -/
def subRunsAux : Bool → List Char → List Char
  | _, [] => []
  | inRun, c :: cs =>
    if isLowerAlnum c then c :: subRunsAux false cs
    else if inRun then subRunsAux true cs
    else '-' :: subRunsAux true cs

/-- Python `str.strip('-')` : drop leading and trailing hyphens. -/
def stripHyphens (l : List Char) : List Char :=
  ((l.dropWhile (· == '-')).reverse.dropWhile (· == '-')).reverse

/-- `slug(s) = re.sub(r'[^a-z0-9]+', '-', s.lower()).strip('-')`. -/
def slug (s : String) : String :=
  String.mk (stripHyphens (subRunsAux false (s.data.map pyLowerChar)))

/-- `make_id(subject, chapter, i) = f"{slug(subject)}-{slug(chapter)}-{i+1}"`. -/
def make_id (subject chapter : String) (i : Nat) : String :=
  slug subject ++ "-" ++ slug chapter ++ "-" ++ String.mk (natDigits (i + 1) 64)

/-! ## The `random` module -/

/-- The process-global random source: a stream of raw natural-number draws
and the position of the next draw. -/
structure Rng where
  stream : Nat → Nat
  pos : Nat

/-- Take one raw draw and advance. -/
def Rng.next (g : Rng) : Nat × Rng := (g.stream g.pos, ⟨g.stream, g.pos + 1⟩)

/-- `random._randbelow n`: one draw, uniform over `[0, n)`, modelled by
reducing the raw draw mod `n` (so the result is in range for every stream). -/
def randbelow (n : Nat) (g : Rng) : Nat × Rng :=
  let p := g.next
  (p.1 % n, p.2)

/-- `random.randint(a, b) = a + _randbelow(b - a + 1)` (endpoints inclusive;
all call sites have `a ≤ b`). -/
def randint (a b : Int) (g : Rng) : Int × Rng :=
  let p := randbelow (b - a + 1).toNat g
  (a + p.1, p.2)

/-- `random.random()`: `k / 2^53` with `k` the raw draw reduced mod `2^53`,
exactly CPython's value set for this primitive. -/
def pyRandom (g : Rng) : PyFloat × Rng :=
  let p := g.next
  (⟨(p.1 % 9007199254740992 : Nat), 9007199254740992⟩, p.2)

/-- `random.uniform(a, b) = a + (b - a) * random.random()`. -/
def pyUniform (a b : PyFloat) (g : Rng) : PyFloat × Rng :=
  let p := pyRandom g
  (a.add ((b.sub a).mul p.1), p.2)

/-- Exchange positions `i` and `j` of a list, identity when either index is
out of range (in the script they never are). -/
def swapL (l : List α) (i j : Nat) : List α :=
  match l[i]?, l[j]? with
  | some x, some y => (l.set i y).set j x
  | _, _ => l

/-- One pass of CPython's `random.shuffle` (Fisher–Yates):
`for i in reversed(range(1, len(x))): j = _randbelow(i+1); swap x[i] x[j]`.
The counter runs `i = n-1, …, 1`. -/
def shuffleAux (l : List α) : Nat → Rng → List α × Rng
  | 0, g => (l, g)
  | i + 1, g =>
    let p := randbelow (i + 2) g
    shuffleAux (swapL l (i + 1) p.1) i p.2

/-- `random.shuffle(l)`. -/
def pyShuffle (l : List α) (g : Rng) : List α × Rng :=
  shuffleAux l (l.length - 1) g

/-! ## `choice_shuffle` -/

/-- `choice_shuffle(correct, distractors)`: copy the distractors, append the
correct string, shuffle in place, and return the list with the index of the
first occurrence of `correct` (Python `list.index`). -/
def choice_shuffle (correct : String) (distractors : List String) (g : Rng) :
    (List String × Nat) × Rng :=
  let opts0 := distractors ++ [correct]
  let p := pyShuffle opts0 g
  ((p.1, p.1.indexOf correct), p.2)

/-! ## Subject generators

Each generator mirrors one `gen_*_question` function of the script and
returns the Python 4-tuple `(q, opts, ans, exp)` plus the advanced random
state.  The common tail `opts, ans = choice_shuffle(correct, distractors);
return q, opts, ans, exp` is factored as `mkQA`. -/

/-- Shared tail of every template branch: shuffle the options and package the
returned 4-tuple `(q, opts, ans, exp)`. -/
def mkQA (q correct : String) (distractors : List String) (e : String) (g : Rng) :
    (String × List String × Nat × String) × Rng :=
  let p := choice_shuffle correct distractors g
  ((q, p.1.1, p.1.2, e), p.2)

/-- Rational stand-in for CPython's `(·) ** 0.5` on floats; only its
existence matters (no claim inspects a value it produces). -/
def pySqrt (x : PyFloat) : PyFloat :=
  if x.num ≤ 0 then ⟨0, 1⟩
  else ⟨(Nat.sqrt (x.num.toNat * x.den.toNat) : Int), x.den⟩

/-- `gen_physics_question(subject, chapter, difficulty, i)`. -/
def gen_physics_question (subject chapter difficulty : String) (i : Nat) (g : Rng) :
    (String × List String × Nat × String) × Rng :=
  if difficulty = "easy" then
    let p1 := randint 5 20 g
    let v := p1.1
    let p2 := randint 1 10 p1.2
    let t := p2.1
    let s := v * t
    let q := "A particle moves with constant speed " ++ pyStrInt v ++ " m/s for " ++
      pyStrInt t ++ " s. What distance does it cover?"
    let correct := pyStrInt s ++ " m"
    let p3 := randint 1 6 p2.2
    let p4 := randint 1 6 p3.2
    let distractors := [pyStrInt (s + p3.1) ++ " m",
      pyStrInt (max 1 (s - p4.1)) ++ " m",
      pyStrFloat (pyRound ((PyFloat.ofInt s).div ⟨2, 1⟩) 1) ++ " m"]
    let e := "Step 1: Distance = speed × time.\nStep 2: " ++ pyStrInt v ++ " × " ++
      pyStrInt t ++ " = " ++ pyStrInt s ++ " m.\nAnswer: " ++ pyStrInt s ++ " m."
    mkQA q correct distractors e p4.2
  else if difficulty = "medium" then
    let p1 := randint 10 30 g
    let v := p1.1
    let p2 := randint 2 12 p1.2
    let t := p2.1
    let q := "A car travels at " ++ pyStrInt v ++ " km/h for " ++ pyStrInt t ++
      " minutes. (1 km = 1000 m) What is the distance in meters?"
    let speed_ms := (PyFloat.ofInt v).mul ((PyFloat.ofInt 1000).div ⟨3600, 1⟩)
    let s_m := pyRoundInt (speed_ms.mul (PyFloat.ofInt (t * 60)))
    let correct := pyStrInt s_m ++ " m"
    let p3 := randint 10 100 p2.2
    let p4 := randint 10 100 p3.2
    let distractors := [pyStrInt (max 1 (s_m - p3.1)) ++ " m",
      pyStrInt (s_m + p4.1) ++ " m",
      pyStrInt (PyFloat.trunc ((PyFloat.ofInt s_m).div ⟨60, 1⟩)) ++ " m"]
    let e := "Convert speed: " ++ pyStrInt v ++ " km/h = " ++
      pyStrFloat (pyRound speed_ms 2) ++ " m/s. Time = " ++ pyStrInt t ++ " min = " ++
      pyStrInt (t * 60) ++ " s. Distance = speed × time = " ++
      pyStrFloat (pyRound speed_ms 2) ++ "×" ++ pyStrInt (t * 60) ++ " ≈ " ++
      pyStrInt s_m ++ " m."
    mkQA q correct distractors e p4.2
  else
    let p1 := randint 1 4 g
    let a := p1.1
    let p2 := randint 0 10 p1.2
    let u := p2.1
    let p3 := randint 2 6 p2.2
    let t := p3.1
    let s := (PyFloat.ofInt (u * t)).add ((((⟨1, 2⟩ : PyFloat).mul
      (PyFloat.ofInt a)).mul (PyFloat.ofInt t)).mul (PyFloat.ofInt t))
    let q := "A body starts with initial velocity " ++ pyStrInt u ++
      " m/s and accelerates uniformly at " ++ pyStrInt a ++ " m/s² for " ++
      pyStrInt t ++ " s. What is the displacement? (use s=ut+1/2at²)"
    let correct := pyStrFloat (pyRound s 2) ++ " m"
    let p4 := pyUniform ⟨1, 1⟩ ⟨5, 1⟩ p3.2
    let p5 := pyUniform ⟨1, 1⟩ ⟨5, 1⟩ p4.2
    let distractors := [pyStrFloat (pyRound (s.add p4.1) 2) ++ " m",
      pyStrFloat (pyRound ((s.sub p5.1).abs) 2) ++ " m",
      pyStrFloat (pyRound (s.div ⟨2, 1⟩) 2) ++ " m"]
    let e := "Use s = ut + 1/2 a t².\nCompute: " ++ pyStrInt u ++ "×" ++ pyStrInt t ++
      " + 0.5×" ++ pyStrInt a ++ "×" ++ pyStrInt t ++ "² = " ++
      pyStrFloat (pyRound s 2) ++ " m."
    mkQA q correct distractors e p5.2

/-- `gen_chemistry_question(subject, chapter, difficulty, i)`. -/
def gen_chemistry_question (subject chapter difficulty : String) (i : Nat) (g : Rng) :
    (String × List String × Nat × String) × Rng :=
  if difficulty = "easy" then
    let q := "Which factor primarily determines the chemical reactivity of an element in a period?"
    let correct := "Effective nuclear charge and valence electron configuration"
    let distractors := ["Atomic mass alone", "Number of neutrons", "Melting point"]
    let e := "Reactivity across a period depends on effective nuclear charge and valence electrons, influencing ionization energy and electron affinity."
    mkQA q correct distractors e g
  else if difficulty = "medium" then
    let p1 := randint 1 5 g
    let n := p1.1
    let q := "How many moles of water are produced when " ++ pyStrInt n ++
      " moles of hydrogen gas react completely with oxygen? (2H2 + O2 → 2H2O)"
    let correct := pyStrInt n ++ " moles"
    let distractors := [pyStrInt (n * 2) ++ " moles",
      pyStrFloat ((PyFloat.ofInt n).div ⟨2, 1⟩) ++ " moles",
      pyStrInt (n + 1) ++ " moles"]
    let e := "Reaction stoichiometry: 2H2 + O2 → 2H2O. 2 moles H2 produce 2 moles H2O, so " ++
      pyStrInt n ++ " moles H2 produce " ++ pyStrInt n ++ " moles H2O."
    mkQA q correct distractors e p1.2
  else
    let p1 := pyUniform ⟨1, 100000⟩ ⟨1, 1000⟩ g
    let ka := pyRound p1.1 6
    let p2 := pyUniform ⟨1, 100⟩ ⟨1, 10⟩ p1.2
    let c := pyRound p2.1 3
    let h := pyRound (pySqrt (ka.mul c)) 6
    let q := "A weak acid HA has Ka = " ++ pyStrFloat ka ++ " and initial concentration " ++
      pyStrFloat c ++ " M. Using approximation, what is the hydrogen ion concentration [H+]?"
    let correct := pyStrFloat h ++ " M"
    let distractors := [pyStrFloat (pyRound (h.mul ⟨10, 1⟩) 6) ++ " M",
      pyStrFloat (pyRound (h.div ⟨10, 1⟩) 6) ++ " M",
      pyStrFloat (pyRound ((ka.mul c).div ⟨2, 1⟩) 6) ++ " M"]
    let e := "For weak acid HA, [H+] ≈ sqrt(Ka×c) = sqrt(" ++ pyStrFloat ka ++ "×" ++
      pyStrFloat c ++ ") ≈ " ++ pyStrFloat h ++ " M."
    mkQA q correct distractors e p2.2

/-- `gen_biology_question(subject, chapter, difficulty, i)`. -/
def gen_biology_question (subject chapter difficulty : String) (i : Nat) (g : Rng) :
    (String × List String × Nat × String) × Rng :=
  if difficulty = "easy" then
    let q := "Which cellular organelle is primarily responsible for ATP production?"
    let correct := "Mitochondrion"
    let distractors := ["Ribosome", "Golgi apparatus", "Lysosome"]
    let e := "Mitochondria produce ATP by oxidative phosphorylation in the inner mitochondrial membrane via the electron transport chain and ATP synthase."
    mkQA q correct distractors e g
  else if difficulty = "medium" then
    let q := "In which phase of meiosis does crossing over occur?"
    let correct := "Prophase I"
    let distractors := ["Metaphase I", "Anaphase II", "Telophase I"]
    let e := "Crossing over occurs in Prophase I during synapsis when homologous chromosomes exchange segments, increasing genetic variation."
    mkQA q correct distractors e g
  else
    let q := "A mutation in a mitochondrial gene reduces ATP production. Which cellular process will be most directly affected?"
    let correct := "Active transport requiring ATP"
    let distractors := ["Passive diffusion across membrane", "Translation at ribosomes", "DNA replication"]
    let e := "Processes that directly consume ATP such as active transport (e.g., Na+/K+ pump) will be affected when mitochondrial ATP production falls."
    mkQA q correct distractors e g

/-! ## `generate_question` -/

/-- The question record the script builds and serialises (one JSON object). -/
structure QuestionRecord where
  id : String
  subject : String
  chapter : String
  topic : String
  topicTags : List String
  difficulty : String
  q : String
  options : List String
  ans : Nat
  exp : String
  source : String
deriving DecidableEq

/-- Python truthiness of the `topic` argument (`None` or `""` are falsy). -/
def topicTruthy : Option String → Bool
  | none => false
  | some t => t ≠ ""

/-- `[t.strip() for t in (topic.split(',') if topic else []) if t.strip()]`. -/
def topicTagsOf (topic : Option String) : List String :=
  match topic with
  | some t =>
    if t ≠ "" then ((splitComma t).map pyStrip).filter (fun x => x ≠ "") else []
  | none => []

/-- `topic or ""`. -/
def topicOrEmpty : Option String → String
  | none => ""
  | some t => if t = "" then "" else t

/-- Lines 118–124: the difficulty tier as a function of the drawn
`random.random()` value: `easy` below `0.45`, `medium` below `0.85`,
`hard` otherwise. -/
def difficultyOf (r : PyFloat) : String :=
  if r.lt ⟨45, 100⟩ then "easy" else if r.lt ⟨85, 100⟩ then "medium" else "hard"

/-- Lines 126–131: dispatch on the subject's case-insensitive prefix:
`phys…` → physics, `chem…` → chemistry, anything else → biology. -/
def dispatch_subject (subject chapter difficulty : String) (i : Nat) (g : Rng) :
    (String × List String × Nat × String) × Rng :=
  if lowerStartsWith subject "phys" then
    gen_physics_question subject chapter difficulty i g
  else if lowerStartsWith subject "chem" then
    gen_chemistry_question subject chapter difficulty i g
  else
    gen_biology_question subject chapter difficulty i g

/-- `generate_question(subject, chapter, topic, i)`: draw a difficulty tier
from the first `random.random()` value, dispatch on the subject's
case-insensitive prefix, and assemble the record.  `topic` is `Option String`
so that Python's `None` is representable. -/
def generate_question (subject chapter : String) (topic : Option String) (i : Nat)
    (g : Rng) : QuestionRecord × Rng :=
  let qid := make_id subject chapter i
  let pr := pyRandom g
  let difficulty := difficultyOf pr.1
  let out := dispatch_subject subject chapter difficulty i pr.2
  ({ id := qid
     subject := subject
     chapter := chapter
     topic := topicOrEmpty topic
     topicTags := topicTagsOf topic
     difficulty := difficulty
     q := out.1.1
     options := out.1.2.1
     ans := out.1.2.2.1
     exp := out.1.2.2.2
     source := "generated-original" }, out.2)

/-! ## The manifest walker (`main`) -/

/-- One chapter's manifest metadata.  `file := none` models a JSON object
without the `'file'` key (so `meta['file']` raises `KeyError`); `topics`
models the optional `'topics'` list. -/
structure ChapterMeta where
  file : Option String
  topics : Option (List String)

/-- The output directory as a map from path to last written JSON array. -/
def FileSystem := String → Option (List QuestionRecord)

/-- `json.dump(arr, open(path, 'w'))`: overwrite whatever was at `path`. -/
def writeFile (fs : FileSystem) (path : String) (recs : List QuestionRecord) : FileSystem :=
  fun p => if p = path then some recs else fs p

/-- `topic = (meta.get('topics') or [None])[0] if meta.get('topics') else ''`:
the first topic when the chapter has a non-empty topics list, else `''`. -/
def topicOfMeta (m : ChapterMeta) : String :=
  match m.topics with
  | some (t :: _) => t
  | _ => ""

/-- `[generate_question(subject, chapter, topic, i) for i in range(count)]`,
generating indices `start, start+1, …` and threading the random state. -/
def genRange (subject chapter : String) (topic : Option String) :
    Nat → Nat → Rng → List QuestionRecord × Rng
  | 0, _, g => ([], g)
  | count + 1, start, g =>
    let p := generate_question subject chapter topic start g
    let rest := genRange subject chapter topic count (start + 1) p.2
    (p.1 :: rest.1, rest.2)

/-- Observable state of a run: the directory contents, the ordered write log,
and `total_files`. -/
structure RunState where
  fs : FileSystem
  log : List (String × List QuestionRecord)
  total_files : Nat

/-- Inner loop of `main()` over one subject's chapters.  A chapter without a
`'file'` key raises `KeyError` at `meta['file']` — before anything for that
chapter is generated or written — modelled by `Except.error` carrying the
state at the abort. -/
def runChapters (subject : String) :
    List (String × ChapterMeta) → Rng → RunState → Except RunState (Rng × RunState)
  | [], g, st => .ok (g, st)
  | (chapter, meta) :: rest, g, st =>
    match meta.file with
    | none => .error st
    | some path =>
      let topic := topicOfMeta meta
      let p := genRange subject chapter (some topic) 300 0 g
      runChapters subject rest p.2
        ⟨writeFile st.fs path p.1, st.log ++ [(path, p.1)], st.total_files + 1⟩

/-- Outer loop of `main()` over subjects, propagating an abort uncaught. -/
def runSubjects :
    List (String × List (String × ChapterMeta)) → Rng → RunState →
    Except RunState (Rng × RunState)
  | [], g, st => .ok (g, st)
  | (subject, chapters) :: rest, g, st =>
    match runChapters subject chapters g st with
    | .error st' => .error st'
    | .ok (g', st') => runSubjects rest g' st'

/-- `main()` on an already-parsed manifest: walk every subject and chapter
against an initial directory state `fs0`. -/
def pyMain (manifest : List (String × List (String × ChapterMeta))) (g : Rng)
    (fs0 : FileSystem) : Except RunState (Rng × RunState) :=
  runSubjects manifest g ⟨fs0, [], 0⟩

/-! ## Shuffle returns a permutation -/

/-- Replacing position `k` by `a` and re-consing the old entry permutes the
original list with `a` consed on. -/
theorem get_cons_set_perm {α : Type} (a : α) :
    ∀ (t : List α) (k : Nat) (h : k < t.length),
      List.Perm (t.get ⟨k, h⟩ :: t.set k a) (a :: t) := by
  intro t
  induction t with
  | nil => intro k h; simp at h
  | cons b s ih =>
    intro k h
    cases k with
    | zero => simpa using List.Perm.swap a b s
    | succ k =>
      have hk : k < s.length := by simpa using h
      have h1 : List.Perm ((b :: s).get ⟨k + 1, h⟩ :: (b :: s).set (k + 1) a)
          (b :: (s.get ⟨k, hk⟩ :: s.set k a)) := by
        simp only [List.get_cons_succ, List.set_cons_succ]
        exact List.Perm.swap b (s.get ⟨k, hk⟩) (s.set k a)
      exact h1.trans (((ih k hk).cons b).trans (List.Perm.swap a b s))

/-- Writing `l[j]` at `i` and `l[i]` at `j` permutes `l`. -/
theorem set_set_perm {α : Type} :
    ∀ (l : List α) (i j : Nat) (hi : i < l.length) (hj : j < l.length),
      List.Perm ((l.set i (l.get ⟨j, hj⟩)).set j (l.get ⟨i, hi⟩)) l := by
  intro l
  induction l with
  | nil => intro i j hi; simp at hi
  | cons b s ih =>
    intro i j hi hj
    cases i with
    | zero =>
      cases j with
      | zero => simp
      | succ j =>
        have hj' : j < s.length := by simpa using hj
        simpa using get_cons_set_perm b s j hj'
    | succ i =>
      have hi' : i < s.length := by simpa using hi
      cases j with
      | zero =>
        simpa using get_cons_set_perm b s i hi'
      | succ j =>
        have hj' : j < s.length := by simpa using hj
        simpa using (ih i j hi' hj').cons b

/-- `swapL` always permutes its input. -/
theorem swapL_perm {α : Type} (l : List α) (i j : Nat) : List.Perm (swapL l i j) l := by
  unfold swapL
  split
  · next x y hx hy =>
    obtain ⟨hi, hxe⟩ := List.getElem?_eq_some.mp hx
    obtain ⟨hj, hye⟩ := List.getElem?_eq_some.mp hy
    have hx' : l.get ⟨i, hi⟩ = x := hxe
    have hy' : l.get ⟨j, hj⟩ = y := hye
    rw [← hx', ← hy']
    exact set_set_perm l i j hi hj
  · exact List.Perm.refl l

/-- Each Fisher–Yates pass permutes its input. -/
theorem shuffleAux_perm {α : Type} :
    ∀ (n : Nat) (l : List α) (g : Rng), List.Perm (shuffleAux l n g).1 l
  | 0, l, g => List.Perm.refl l
  | n + 1, l, g =>
    (shuffleAux_perm n (swapL l (n + 1) ((randbelow (n + 2) g).1)) (randbelow (n + 2) g).2).trans
      (swapL_perm l (n + 1) ((randbelow (n + 2) g).1))

/-- `random.shuffle` permutes its input for every random state. -/
theorem pyShuffle_perm {α : Type} (l : List α) (g : Rng) :
    List.Perm (pyShuffle l g).1 l :=
  shuffleAux_perm (l.length - 1) l g

/-! ## `choice_shuffle` specification -/

theorem choice_shuffle_perm (c : String) (ds : List String) (g : Rng) :
    List.Perm (choice_shuffle c ds g).1.1 (ds ++ [c]) :=
  pyShuffle_perm (ds ++ [c]) g

theorem choice_shuffle_length (c : String) (ds : List String) (g : Rng) :
    (choice_shuffle c ds g).1.1.length = ds.length + 1 := by
  simpa using (choice_shuffle_perm c ds g).length_eq

theorem choice_shuffle_mem (c : String) (ds : List String) (g : Rng) :
    c ∈ (choice_shuffle c ds g).1.1 :=
  (choice_shuffle_perm c ds g).mem_iff.mpr (by simp)

theorem choice_shuffle_ans_lt (c : String) (ds : List String) (g : Rng) :
    (choice_shuffle c ds g).1.2 < ds.length + 1 := by
  rw [← choice_shuffle_length c ds g]
  exact List.indexOf_lt_length.mpr (choice_shuffle_mem c ds g)

theorem choice_shuffle_getElem (c : String) (ds : List String) (g : Rng) :
    (choice_shuffle c ds g).1.1[(choice_shuffle c ds g).1.2]? = some c := by
  have hlt : (choice_shuffle c ds g).1.1.indexOf c < (choice_shuffle c ds g).1.1.length :=
    List.indexOf_lt_length.mpr (choice_shuffle_mem c ds g)
  show (choice_shuffle c ds g).1.1[(choice_shuffle c ds g).1.1.indexOf c]? = some c
  rw [List.getElem?_eq_getElem hlt, List.getElem_indexOf hlt]

/-! ## Every generated option list comes from `choice_shuffle` -/

/-- `(opts, ans)` was produced by `choice_shuffle` from a designated correct
string and a list of exactly 3 distractors. -/
def FromChoiceShuffle (opts : List String) (ans : Nat) : Prop :=
  ∃ c ds g, ds.length = 3 ∧
    opts = (choice_shuffle c ds g).1.1 ∧ ans = (choice_shuffle c ds g).1.2

set_option maxRecDepth 4000 in
theorem gen_physics_fromCS (subject chapter difficulty : String) (i : Nat) (g : Rng) :
    FromChoiceShuffle (gen_physics_question subject chapter difficulty i g).1.2.1
      (gen_physics_question subject chapter difficulty i g).1.2.2.1 := by
  unfold gen_physics_question mkQA
  split
  · exact ⟨_, _, _, by rfl, rfl, rfl⟩
  split
  · exact ⟨_, _, _, by rfl, rfl, rfl⟩
  · exact ⟨_, _, _, by rfl, rfl, rfl⟩

set_option maxRecDepth 4000 in
theorem gen_chemistry_fromCS (subject chapter difficulty : String) (i : Nat) (g : Rng) :
    FromChoiceShuffle (gen_chemistry_question subject chapter difficulty i g).1.2.1
      (gen_chemistry_question subject chapter difficulty i g).1.2.2.1 := by
  unfold gen_chemistry_question mkQA
  split
  · exact ⟨_, _, _, by rfl, rfl, rfl⟩
  split
  · exact ⟨_, _, _, by rfl, rfl, rfl⟩
  · exact ⟨_, _, _, by rfl, rfl, rfl⟩

set_option maxRecDepth 4000 in
theorem gen_biology_fromCS (subject chapter difficulty : String) (i : Nat) (g : Rng) :
    FromChoiceShuffle (gen_biology_question subject chapter difficulty i g).1.2.1
      (gen_biology_question subject chapter difficulty i g).1.2.2.1 := by
  unfold gen_biology_question mkQA
  split
  · exact ⟨_, _, _, by rfl, rfl, rfl⟩
  split
  · exact ⟨_, _, _, by rfl, rfl, rfl⟩
  · exact ⟨_, _, _, by rfl, rfl, rfl⟩

theorem dispatch_subject_fromCS (subject chapter difficulty : String) (i : Nat) (g : Rng) :
    FromChoiceShuffle (dispatch_subject subject chapter difficulty i g).1.2.1
      (dispatch_subject subject chapter difficulty i g).1.2.2.1 := by
  unfold dispatch_subject
  split
  · exact gen_physics_fromCS subject chapter difficulty i g
  split
  · exact gen_chemistry_fromCS subject chapter difficulty i g
  · exact gen_biology_fromCS subject chapter difficulty i g

theorem generate_question_options_eq (subject chapter : String) (topic : Option String)
    (i : Nat) (g : Rng) :
    (generate_question subject chapter topic i g).1.options =
      (dispatch_subject subject chapter (difficultyOf (pyRandom g).1) i
        (pyRandom g).2).1.2.1 := rfl

theorem generate_question_ans_eq (subject chapter : String) (topic : Option String)
    (i : Nat) (g : Rng) :
    (generate_question subject chapter topic i g).1.ans =
      (dispatch_subject subject chapter (difficultyOf (pyRandom g).1) i
        (pyRandom g).2).1.2.2.1 := rfl

theorem generate_question_fromCS (subject chapter : String) (topic : Option String)
    (i : Nat) (g : Rng) :
    FromChoiceShuffle (generate_question subject chapter topic i g).1.options
      (generate_question subject chapter topic i g).1.ans := by
  rw [generate_question_options_eq, generate_question_ans_eq]
  exact dispatch_subject_fromCS subject chapter (difficultyOf (pyRandom g).1) i (pyRandom g).2

theorem fromCS_length_ans {opts : List String} {ans : Nat} (h : FromChoiceShuffle opts ans) :
    opts.length = 4 ∧ ans < 4 := by
  obtain ⟨c, ds, g, hds, ho, ha⟩ := h
  subst ho; subst ha
  refine ⟨?_, ?_⟩
  · rw [choice_shuffle_length, hds]
  · have h2 := choice_shuffle_ans_lt c ds g
    rw [hds] at h2
    exact h2

/-- C1: for every subject, chapter, topic, index and random state, the record
returned by `generate_question` has exactly 4 options and its answer index
satisfies `0 ≤ ans < 4 = len(options)` (`ans : Nat`, so `0 ≤ ans` holds by
type). -/
theorem C1_options_length_and_ans_range (subject chapter : String) (topic : Option String)
    (i : Nat) (g : Rng) :
    (generate_question subject chapter topic i g).1.options.length = 4 ∧
      (generate_question subject chapter topic i g).1.ans <
        (generate_question subject chapter topic i g).1.options.length := by
  have h := fromCS_length_ans (generate_question_fromCS subject chapter topic i g)
  exact ⟨h.1, by rw [h.1]; exact h.2⟩

/-- C2: `choice_shuffle` returns a permutation of the distractors with the
correct string appended, and `ans` is the index of the first occurrence of the
correct string's value, so `options[ans]` is the correct string by value
equality; and every generated record's `(options, ans)` is such a
`choice_shuffle` output for a designated correct string and 3 distractors. -/
theorem C2_choice_shuffle_correct :
    (∀ (correct : String) (distractors : List String) (g : Rng),
      List.Perm (choice_shuffle correct distractors g).1.1 (distractors ++ [correct]) ∧
      (choice_shuffle correct distractors g).1.2 =
        (choice_shuffle correct distractors g).1.1.indexOf correct ∧
      (choice_shuffle correct distractors g).1.1[(choice_shuffle correct distractors g).1.2]? =
        some correct) ∧
    (∀ (subject chapter : String) (topic : Option String) (i : Nat) (g : Rng),
      FromChoiceShuffle (generate_question subject chapter topic i g).1.options
        (generate_question subject chapter topic i g).1.ans) :=
  ⟨fun c ds g => ⟨choice_shuffle_perm c ds g, rfl, choice_shuffle_getElem c ds g⟩,
   generate_question_fromCS⟩

theorem generate_question_difficulty_eq (subject chapter : String) (topic : Option String)
    (i : Nat) (g : Rng) :
    (generate_question subject chapter topic i g).1.difficulty =
      difficultyOf (pyRandom g).1 := by
  simp only [generate_question]

theorem generate_question_q_eq (subject chapter : String) (topic : Option String)
    (i : Nat) (g : Rng) :
    (generate_question subject chapter topic i g).1.q =
      (dispatch_subject subject chapter (difficultyOf (pyRandom g).1) i
        (pyRandom g).2).1.1 := rfl

theorem generate_question_exp_eq (subject chapter : String) (topic : Option String)
    (i : Nat) (g : Rng) :
    (generate_question subject chapter topic i g).1.exp =
      (dispatch_subject subject chapter (difficultyOf (pyRandom g).1) i
        (pyRandom g).2).1.2.2.2 := rfl

/-- The three tiers of `difficultyOf` as threshold tests on the drawn value. -/
theorem difficultyOf_cases (r : PyFloat) :
    (difficultyOf r = "easy" ↔ r.lt ⟨45, 100⟩ = true) ∧
    (difficultyOf r = "medium" ↔ (r.lt ⟨45, 100⟩ = false ∧ r.lt ⟨85, 100⟩ = true)) ∧
    (difficultyOf r = "hard" ↔ (r.lt ⟨45, 100⟩ = false ∧ r.lt ⟨85, 100⟩ = false)) := by
  unfold difficultyOf
  rcases h1 : r.lt ⟨45, 100⟩ with _ | _ <;> rcases h2 : r.lt ⟨85, 100⟩ with _ | _ <;>
    simp [h1, h2]

theorem difficultyOf_mem (r : PyFloat) :
    difficultyOf r = "easy" ∨ difficultyOf r = "medium" ∨ difficultyOf r = "hard" := by
  unfold difficultyOf
  rcases h1 : r.lt ⟨45, 100⟩ with _ | _ <;> rcases h2 : r.lt ⟨85, 100⟩ with _ | _ <;> simp [h1, h2]

theorem generate_question_payload_eq (subject chapter : String) (topic : Option String)
    (i : Nat) (g : Rng) :
    ((generate_question subject chapter topic i g).1.q,
      (generate_question subject chapter topic i g).1.options,
      (generate_question subject chapter topic i g).1.ans,
      (generate_question subject chapter topic i g).1.exp) =
      ((dispatch_subject subject chapter
          ((generate_question subject chapter topic i g).1.difficulty) i (pyRandom g).2).1.1,
        (dispatch_subject subject chapter
          ((generate_question subject chapter topic i g).1.difficulty) i (pyRandom g).2).1.2.1,
        (dispatch_subject subject chapter
          ((generate_question subject chapter topic i g).1.difficulty) i (pyRandom g).2).1.2.2.1,
        (dispatch_subject subject chapter
          ((generate_question subject chapter topic i g).1.difficulty) i (pyRandom g).2).1.2.2.2) := by
  rw [generate_question_difficulty_eq, generate_question_q_eq, generate_question_options_eq,
    generate_question_ans_eq, generate_question_exp_eq]

/-- C4: the difficulty tier is computed from the first `random.random()` draw
`r` (the 45/40/15 weighting): `easy` iff `r < 0.45`, `medium` iff
`0.45 ≤ r < 0.85`, `hard` iff `0.85 ≤ r`; the field is always one of the three
tiers; and the question payload is the subject template dispatched at exactly
that tier, evaluated on the state left after that first draw. -/
theorem C4_difficulty_weighted_draw (subject chapter : String) (topic : Option String)
    (i : Nat) (g : Rng) :
    ((generate_question subject chapter topic i g).1.difficulty = "easy" ↔
        (pyRandom g).1.lt ⟨45, 100⟩ = true) ∧
    ((generate_question subject chapter topic i g).1.difficulty = "medium" ↔
        ((pyRandom g).1.lt ⟨45, 100⟩ = false ∧ (pyRandom g).1.lt ⟨85, 100⟩ = true)) ∧
    ((generate_question subject chapter topic i g).1.difficulty = "hard" ↔
        ((pyRandom g).1.lt ⟨45, 100⟩ = false ∧ (pyRandom g).1.lt ⟨85, 100⟩ = false)) ∧
    ((generate_question subject chapter topic i g).1.difficulty = "easy" ∨
      (generate_question subject chapter topic i g).1.difficulty = "medium" ∨
      (generate_question subject chapter topic i g).1.difficulty = "hard") ∧
    ((generate_question subject chapter topic i g).1.q,
      (generate_question subject chapter topic i g).1.options,
      (generate_question subject chapter topic i g).1.ans,
      (generate_question subject chapter topic i g).1.exp) =
      ((dispatch_subject subject chapter
          ((generate_question subject chapter topic i g).1.difficulty) i (pyRandom g).2).1.1,
        (dispatch_subject subject chapter
          ((generate_question subject chapter topic i g).1.difficulty) i (pyRandom g).2).1.2.1,
        (dispatch_subject subject chapter
          ((generate_question subject chapter topic i g).1.difficulty) i (pyRandom g).2).1.2.2.1,
        (dispatch_subject subject chapter
          ((generate_question subject chapter topic i g).1.difficulty) i (pyRandom g).2).1.2.2.2) := by
  have hd := generate_question_difficulty_eq subject chapter topic i g
  have hc := difficultyOf_cases (pyRandom g).1
  have hm := difficultyOf_mem (pyRandom g).1
  rw [hd]
  exact ⟨hc.1, hc.2.1, hc.2.2, hm, by rw [← hd]; exact generate_question_payload_eq subject chapter topic i g⟩

theorem generate_question_id_eq (subject chapter : String) (topic : Option String)
    (i : Nat) (g : Rng) :
    (generate_question subject chapter topic i g).1.id = make_id subject chapter i := by
  simp only [generate_question]

theorem generate_question_topic_eq (subject chapter : String) (topic : Option String)
    (i : Nat) (g : Rng) :
    (generate_question subject chapter topic i g).1.topic = topicOrEmpty topic := by
  simp only [generate_question]

theorem generate_question_topicTags_eq (subject chapter : String) (topic : Option String)
    (i : Nat) (g : Rng) :
    (generate_question subject chapter topic i g).1.topicTags = topicTagsOf topic := by
  simp only [generate_question]

theorem generate_question_rng_eq (subject chapter : String) (topic : Option String)
    (i : Nat) (g : Rng) :
    (generate_question subject chapter topic i g).2 =
      (dispatch_subject subject chapter (difficultyOf (pyRandom g).1) i (pyRandom g).2).2 := rfl

/-- The observable output of one subject-generator call: the 4-tuple
`(q, opts, ans, exp)` flattened with the advanced random state. -/
def payloadOf (p : (String × List String × Nat × String) × Rng) :
    String × List String × Nat × String × Rng :=
  (p.1.1, p.1.2.1, p.1.2.2.1, p.1.2.2.2, p.2)

/-- C5: `generate_question` dispatches by case-insensitive prefix match on
the subject: `phys…` → physics generator, `chem…` → chemistry generator,
anything else → biology generator, all invoked at the drawn difficulty and
at the random state left after the difficulty draw. -/
theorem C5_subject_prefix_dispatch (subject chapter : String) (topic : Option String)
    (i : Nat) (g : Rng) :
    ((generate_question subject chapter topic i g).1.q,
      (generate_question subject chapter topic i g).1.options,
      (generate_question subject chapter topic i g).1.ans,
      (generate_question subject chapter topic i g).1.exp,
      (generate_question subject chapter topic i g).2) =
      (if lowerStartsWith subject "phys" then
        payloadOf (gen_physics_question subject chapter (difficultyOf (pyRandom g).1) i
          (pyRandom g).2)
      else if lowerStartsWith subject "chem" then
        payloadOf (gen_chemistry_question subject chapter (difficultyOf (pyRandom g).1) i
          (pyRandom g).2)
      else
        payloadOf (gen_biology_question subject chapter (difficultyOf (pyRandom g).1) i
          (pyRandom g).2)) := by
  rw [generate_question_q_eq, generate_question_options_eq, generate_question_ans_eq,
    generate_question_exp_eq, generate_question_rng_eq]
  rcases hp : lowerStartsWith subject "phys" with _ | _ <;>
    rcases hc : lowerStartsWith subject "chem" with _ | _ <;>
      simp [dispatch_subject, payloadOf, hp, hc]

/-- C6: every record's `id` is `make_id(subject, chapter, i)`, which is
`slug(subject) + "-" + slug(chapter) + "-" + str(i+1)` (1-based index);
`slug` lowercases, collapses runs outside `[a-z0-9]` to one hyphen and strips
edge hyphens — see `slug`, `subRunsAux`, `stripHyphens`. -/
theorem C6_id_format (subject chapter : String) (topic : Option String) (i : Nat) (g : Rng) :
    (generate_question subject chapter topic i g).1.id = make_id subject chapter i ∧
      make_id subject chapter i =
        slug subject ++ "-" ++ slug chapter ++ "-" ++ pyStrInt ((i : Int) + 1) := by
  refine ⟨generate_question_id_eq subject chapter topic i g, ?_⟩
  unfold make_id pyStrInt
  have h1 : ¬((i : Int) + 1 < 0) := by omega
  have h2 : ((i : Int) + 1).toNat = i + 1 := by omega
  rw [if_neg h1, h2]

/-- C8: `generate_question` is total by construction (it is a Lean function
into `QuestionRecord × Rng`); its `topicTags` field is the trimmed non-empty
pieces of `topic` split on commas, and an empty or missing (`None`) topic
yields the empty tag list with the record's `topic` field equal to `""`. -/
theorem C8_total_topic_tags (subject chapter : String) (topic : Option String)
    (i : Nat) (g : Rng) :
    ((generate_question subject chapter topic i g).1.topicTags =
      (match topic with
        | some t => if t ≠ "" then ((splitComma t).map pyStrip).filter (fun x => x ≠ "") else []
        | none => [])) ∧
    ((generate_question subject chapter topic i g).1.topic =
      (match topic with
        | some t => if t = "" then "" else t
        | none => "")) ∧
    (generate_question subject chapter none i g).1.topicTags = [] ∧
    (generate_question subject chapter (some "") i g).1.topicTags = [] ∧
    (generate_question subject chapter none i g).1.topic = "" ∧
    (generate_question subject chapter (some "") i g).1.topic = "" := by
  refine ⟨?_, ?_, ?_, ?_, ?_, ?_⟩
  · rw [generate_question_topicTags_eq]; rcases topic with _ | t <;> rfl
  · rw [generate_question_topic_eq]; rcases topic with _ | t <;> rfl
  · rw [generate_question_topicTags_eq]; rfl
  · rw [generate_question_topicTags_eq]; rfl
  · rw [generate_question_topic_eq]; rfl
  · rw [generate_question_topic_eq]; rfl

/-- A random stream that reads raw draws from a finite list (0 afterwards). -/
def streamOf (l : List Nat) : Rng := ⟨fun n => l.getD n 0, 0⟩

/-- C9: distractors are not guaranteed distinct.  First run: subject
`Chemistry`, first draw `2^52` (so `r = 0.5`, tier `medium`), second draw `0`
(so `n = randint(1,5) = 1`): the stoichiometry distractors `n*2` and `n+1`
both print as `2 moles`, so `options` holds `2 moles` twice while the correct
option (at `ans`) is `1 moles`.  Second run: subject `Physics`, first draw
`2^53 - 1` (tier `hard`), then `a = 1`, `u = 0`, `t = 2` (so `s = 2.0`), and
`uniform(1,5)` draws `2.0` and `4.0`: the distractor `abs(s - 4.0)` prints as
`2.0 m`, equal to the correct string, which therefore occurs twice in
`options`. -/
theorem C9_duplicate_distractors :
    ((generate_question "Chemistry" "Stoichiometry" none 0
        (streamOf [4503599627370496, 0])).1.difficulty = "medium" ∧
      (generate_question "Chemistry" "Stoichiometry" none 0
        (streamOf [4503599627370496, 0])).1.options.count "2 moles" = 2 ∧
      ((generate_question "Chemistry" "Stoichiometry" none 0
        (streamOf [4503599627370496, 0])).1.options[(generate_question "Chemistry"
          "Stoichiometry" none 0 (streamOf [4503599627370496, 0])).1.ans]? =
        some "1 moles")) ∧
    ((generate_question "Physics" "Kinematics" none 0
        (streamOf [9007199254740991, 0, 0, 0, 2251799813685248, 6755399441055744])).1.difficulty
          = "hard" ∧
      (generate_question "Physics" "Kinematics" none 0
        (streamOf [9007199254740991, 0, 0, 0, 2251799813685248,
          6755399441055744])).1.options.count "2.0 m" = 2 ∧
      ((generate_question "Physics" "Kinematics" none 0
        (streamOf [9007199254740991, 0, 0, 0, 2251799813685248,
          6755399441055744])).1.options[(generate_question "Physics" "Kinematics" none 0
          (streamOf [9007199254740991, 0, 0, 0, 2251799813685248,
            6755399441055744])).1.ans]? = some "2.0 m")) := by
  decide

/-! ## `slug` is idempotent -/

/-- Characters that can appear in a slug: lowercase alphanumerics and the
hyphen. -/
def slugOk (c : Char) : Bool := isLowerAlnum c || c == '-'

/-- Adjacent characters are never both hyphens. -/
def HyphenSep : List Char → Prop :=
  List.Chain' (fun a b => ¬(a = '-' ∧ b = '-'))

/-- Shape of a `slug` output: slug characters only, no two adjacent hyphens,
no hyphen at either end. -/
def SlugGood (l : List Char) : Prop :=
  (∀ c ∈ l, slugOk c = true) ∧ HyphenSep l ∧
    l.head? ≠ some '-' ∧ l.getLast? ≠ some '-'

theorem isLowerAlnum_ne_hyphen {c : Char} (h : isLowerAlnum c = true) : ¬(c = '-') := by
  intro he
  subst he
  exact absurd h (by decide)

theorem toLower_fixed (c : Char) (h : isLowerAlnum c = true) : Char.toLower c = c := by
  simp only [isLowerAlnum, Bool.or_eq_true, Bool.and_eq_true, decide_eq_true_eq] at h
  unfold Char.toLower
  rw [if_neg]
  rintro ⟨h1, h2⟩
  rcases h with ⟨ha, hb⟩ | ⟨ha, hb⟩
  · have ha' : (97 : Nat) ≤ c.toNat := ha
    omega
  · have hb' : c.toNat ≤ (57 : Nat) := hb
    omega

theorem pyLowerChar_fixed {c : Char} (h : slugOk c = true) : pyLowerChar c = c := by
  have h' : isLowerAlnum c = true ∨ c = '-' := by simpa [slugOk] using h
  unfold pyLowerChar
  rcases h' with h1 | h2
  · exact toLower_fixed c h1
  · subst h2
    decide

theorem subRunsAux_ok : ∀ (l : List Char) (b : Bool) (c : Char),
    c ∈ subRunsAux b l → slugOk c = true := by
  intro l
  induction l with
  | nil => intro b c h; simp [subRunsAux] at h
  | cons a s ih =>
    intro b c h
    rcases hA : isLowerAlnum a with _ | _
    · cases b
      · simp only [subRunsAux, hA, Bool.false_eq_true, if_false] at h
        rcases List.mem_cons.mp h with h | h
        · subst h; decide
        · exact ih true c h
      · simp only [subRunsAux, hA, Bool.false_eq_true, if_false, if_true] at h
        exact ih true c h
    · simp only [subRunsAux, hA, if_true] at h
      rcases List.mem_cons.mp h with h | h
      · subst h; simp [slugOk, hA]
      · exact ih false c h

theorem subRunsAux_true_head : ∀ (l : List Char) (c : Char),
    (subRunsAux true l).head? = some c → isLowerAlnum c = true := by
  intro l
  induction l with
  | nil => intro c h; simp [subRunsAux] at h
  | cons a s ih =>
    intro c h
    rcases hA : isLowerAlnum a with _ | _
    · simp only [subRunsAux, hA, Bool.false_eq_true, if_false, if_true] at h
      exact ih c h
    · simp only [subRunsAux, hA, if_true, List.head?_cons, Option.some.injEq] at h
      subst h
      exact hA

theorem subRunsAux_hyphenSep : ∀ (l : List Char) (b : Bool), HyphenSep (subRunsAux b l) := by
  intro l
  induction l with
  | nil => intro b; simp [subRunsAux, HyphenSep]
  | cons a s ih =>
    intro b
    rcases hA : isLowerAlnum a with _ | _
    · cases b
      · rw [show subRunsAux false (a :: s) = '-' :: subRunsAux true s from by
          simp [subRunsAux, hA]]
        refine List.chain'_cons'.mpr ⟨?_, ih true⟩
        intro d hd
        rintro ⟨_, hd'⟩
        exact isLowerAlnum_ne_hyphen (subRunsAux_true_head s d hd) hd'
      · rw [show subRunsAux true (a :: s) = subRunsAux true s from by simp [subRunsAux, hA]]
        exact ih true
    · rw [show subRunsAux b (a :: s) = a :: subRunsAux false s by
        cases b <;> simp [subRunsAux, hA]]
      refine List.chain'_cons'.mpr ⟨?_, ih false⟩
      intro d hd
      rintro ⟨ha', _⟩
      exact isLowerAlnum_ne_hyphen hA ha'

theorem subRunsAux_fixed : ∀ (l : List Char),
    (∀ c ∈ l, slugOk c = true) → HyphenSep l →
    subRunsAux false l = l ∧ (l.head? ≠ some '-' → subRunsAux true l = l) := by
  intro l
  induction l with
  | nil => exact fun _ _ => ⟨rfl, fun _ => rfl⟩
  | cons a s ih =>
    intro hok hch
    have hok_s : ∀ c ∈ s, slugOk c = true := fun c hc => hok c (List.mem_cons_of_mem a hc)
    have hpair := (List.chain'_cons'.mp hch).1
    have hch_s : HyphenSep s := (List.chain'_cons'.mp hch).2
    have ihs := ih hok_s hch_s
    constructor
    · rcases hA : isLowerAlnum a with _ | _
      · have ha : a = '-' := by
          have := hok a (List.mem_cons_self a s)
          simpa [slugOk, hA] using this
        have hhead : s.head? ≠ some '-' := by
          intro hh
          exact hpair '-' (by rw [hh]; rfl) ⟨ha, rfl⟩
        rw [show subRunsAux false (a :: s) = '-' :: subRunsAux true s from by
          simp [subRunsAux, hA]]
        rw [ihs.2 hhead, ha]
      · rw [show subRunsAux false (a :: s) = a :: subRunsAux false s from by
          simp [subRunsAux, hA]]
        rw [ihs.1]
    · intro hh
      have ha : ¬(a = '-') := fun he => hh (by rw [he]; rfl)
      have hA : isLowerAlnum a = true := by
        have := hok a (List.mem_cons_self a s)
        rcases (by simpa [slugOk] using this : isLowerAlnum a = true ∨ a = '-') with h1 | h2
        · exact h1
        · exact absurd h2 ha
      rw [show subRunsAux true (a :: s) = a :: subRunsAux false s from by
        simp [subRunsAux, hA]]
      rw [ihs.1]

theorem dropWhile_hyphen_head : ∀ (l : List Char) (c : Char),
    (l.dropWhile (· == '-')).head? = some c → ¬(c = '-') := by
  intro l
  induction l with
  | nil => intro c h; simp at h
  | cons a s ih =>
    intro c h
    rcases hA : (a == '-') with _ | _
    · rw [List.dropWhile_cons_of_neg (by simp [hA])] at h
      simp only [List.head?_cons, Option.some.injEq] at h
      subst h
      simpa using hA
    · rw [List.dropWhile_cons_of_pos (by simp [hA])] at h
      exact ih c h

theorem dropWhile_eq_self_of_head (l : List Char) (h : l.head? ≠ some '-') :
    l.dropWhile (· == '-') = l := by
  cases l with
  | nil => rfl
  | cons a s =>
    have ha : ¬(a = '-') := fun he => h (by rw [he]; rfl)
    rw [List.dropWhile_cons_of_neg (by simpa using ha)]

theorem hyphenSep_reverse {l : List Char} (h : HyphenSep l) : HyphenSep l.reverse := by
  unfold HyphenSep at *
  rw [List.chain'_reverse]
  exact h.imp (fun a b hab => by rintro ⟨x, y⟩; exact hab ⟨y, x⟩)

theorem hyphenSep_suffix {l l' : List Char} (h : HyphenSep l) (hs : l' <:+ l) :
    HyphenSep l' :=
  h.suffix hs

theorem stripHyphens_good (l : List Char) (hok : ∀ c ∈ l, slugOk c = true)
    (hch : HyphenSep l) : SlugGood (stripHyphens l) := by
  unfold stripHyphens
  set B := l.dropWhile (· == '-') with hB
  set C := B.reverse.dropWhile (· == '-') with hC
  have hBl : B <:+ l := List.dropWhile_suffix _
  have hCB : C <:+ B.reverse := List.dropWhile_suffix _
  refine ⟨?_, ?_, ?_, ?_⟩
  · intro c hc
    apply hok
    have h1 : c ∈ C := List.mem_reverse.mp hc
    have h2 : c ∈ B.reverse := hCB.subset h1
    exact hBl.subset (List.mem_reverse.mp h2)
  · exact hyphenSep_reverse (hyphenSep_suffix (hyphenSep_reverse (hyphenSep_suffix hch hBl)) hCB)
  · rw [show C.reverse.head? = C.getLast? from List.head?_reverse C]
    rcases hCnil : C with _ | ⟨d, ds⟩
    · simp
    · rw [← hCnil]
      obtain ⟨t, ht⟩ := hCB
      have hCne : C ≠ [] := by rw [hCnil]; simp
      have hgl : C.getLast? = B.reverse.getLast? := by
        rw [← ht]
        exact (List.getLast?_append_of_ne_nil t hCne).symm
      rw [hgl, List.getLast?_reverse]
      intro hBh
      exact dropWhile_hyphen_head l '-' hBh rfl
  · rw [List.getLast?_reverse]
    intro hCh
    exact dropWhile_hyphen_head B.reverse '-' hCh rfl

theorem slug_data_good (s : String) : SlugGood (slug s).data := by
  show SlugGood (stripHyphens (subRunsAux false (s.data.map pyLowerChar)))
  exact stripHyphens_good _ (fun c hc => subRunsAux_ok _ false c hc)
    (subRunsAux_hyphenSep _ false)

theorem slug_fixed_of_good (l : List Char) (h : SlugGood l) :
    slug (String.mk l) = String.mk l := by
  obtain ⟨hok, hch, hh, hl⟩ := h
  unfold slug
  have hdata : (String.mk l).data = l := rfl
  rw [hdata]
  have hmap : l.map pyLowerChar = l := by
    rw [List.map_congr_left (fun c hc => pyLowerChar_fixed (hok c hc)), List.map_id']
  rw [hmap, (subRunsAux_fixed l hok hch).1]
  unfold stripHyphens
  rw [dropWhile_eq_self_of_head l hh]
  rw [dropWhile_eq_self_of_head l.reverse (by rw [List.head?_reverse]; exact hl)]
  rw [List.reverse_reverse]

/-- C10: `slug` is idempotent: its output consists of lowercase alphanumerics
and single interior hyphens with no hyphen at either end, and such strings are
fixed points of `slug`. -/
theorem C10_slug_idempotent (s : String) : slug (slug s) = slug s := by
  have heta : String.mk (slug s).data = slug s := rfl
  calc slug (slug s) = slug (String.mk (slug s).data) := by rw [heta]
    _ = String.mk (slug s).data := slug_fixed_of_good _ (slug_data_good s)
    _ = slug s := heta

/-! ## Manifest walker: 300 records per chapter, abort on missing file key -/

theorem genRange_length (subject chapter : String) (topic : Option String) :
    ∀ (n start : Nat) (g : Rng), (genRange subject chapter topic n start g).1.length = n
  | 0, _, _ => rfl
  | n + 1, start, g => by
    simp [genRange, genRange_length subject chapter topic n (start + 1)]

theorem genRange_get (subject chapter : String) (topic : Option String) :
    ∀ (n start : Nat) (g : Rng) (k : Nat), k < n →
      ∃ g', (genRange subject chapter topic n start g).1[k]? =
        some (generate_question subject chapter topic (start + k) g').1 := by
  intro n
  induction n with
  | zero => intro start g k hk; omega
  | succ n ih =>
    intro start g k hk
    cases k with
    | zero => exact ⟨g, by simp [genRange]⟩
    | succ k =>
      obtain ⟨g', hg'⟩ := ih (start + 1)
        (generate_question subject chapter topic start g).2 k (by omega)
      refine ⟨g', ?_⟩
      have harr : (start + 1) + k = start + (k + 1) := by omega
      simp only [genRange, List.getElem?_cons_succ]
      rw [hg', harr]

/-- The write an honest run performs for one chapter: the manifest's path,
and exactly 300 records generated at sequence indices `0..299`, whose ids are
`make_id subject chapter k` (1-based suffixes `1..300`). -/
def GoodWrite (subject chapter : String) (meta : ChapterMeta)
    (w : String × List QuestionRecord) : Prop :=
  meta.file = some w.1 ∧ w.2.length = 300 ∧
    (∀ k, k < 300 → ∃ g', w.2[k]? =
      some (generate_question subject chapter (some (topicOfMeta meta)) k g').1) ∧
    (∀ k, k < 300 → w.2[k]?.map QuestionRecord.id = some (make_id subject chapter k))

/-- Every chapter of the manifest carries a `'file'` key. -/
def hasAllFiles (manifest : List (String × List (String × ChapterMeta))) : Bool :=
  manifest.all (fun p => p.2.all (fun c => c.2.file.isSome))

theorem goodWrite_of_genRange (subject chapter : String) (meta : ChapterMeta) (path : String)
    (g : Rng) (hfile : meta.file = some path) :
    GoodWrite subject chapter meta
      (path, (genRange subject chapter (some (topicOfMeta meta)) 300 0 g).1) := by
  refine ⟨hfile, genRange_length subject chapter (some (topicOfMeta meta)) 300 0 g, ?_, ?_⟩
  · intro k hk
    obtain ⟨g', hg'⟩ := genRange_get subject chapter (some (topicOfMeta meta)) 300 0 g k hk
    exact ⟨g', by simpa using hg'⟩
  · intro k hk
    obtain ⟨g', hg'⟩ := genRange_get subject chapter (some (topicOfMeta meta)) 300 0 g k hk
    simp only [Nat.zero_add] at hg'
    rw [hg']
    simp [generate_question_id_eq]

theorem runChapters_ok (subject : String) :
    ∀ (chs : List (String × ChapterMeta)) (g : Rng) (st : RunState),
      (chs.all fun c => c.2.file.isSome) = true →
      ∃ g' log',
        runChapters subject chs g st =
          .ok (g', ⟨log'.foldl (fun f e => writeFile f e.1 e.2) st.fs,
            st.log ++ log', st.total_files + log'.length⟩) ∧
        List.Forall₂ (fun (c : String × ChapterMeta) w => GoodWrite subject c.1 c.2 w)
          chs log' := by
  intro chs
  induction chs with
  | nil =>
    intro g st _
    exact ⟨g, [], by simp [runChapters], List.Forall₂.nil⟩
  | cons hd tl ih =>
    intro g st hall
    rcases hd with ⟨chapter, meta⟩
    simp only [List.all_cons, Bool.and_eq_true] at hall
    obtain ⟨path, hpath⟩ := Option.isSome_iff_exists.mp hall.1
    set p := genRange subject chapter (some (topicOfMeta meta)) 300 0 g with hp
    obtain ⟨g', log'', hrun, hfa⟩ := ih p.2
      ⟨writeFile st.fs path p.1, st.log ++ [(path, p.1)], st.total_files + 1⟩ hall.2
    refine ⟨g', (path, p.1) :: log'', ?_, ?_⟩
    · rw [show runChapters subject ((chapter, meta) :: tl) g st =
        runChapters subject tl p.2
          ⟨writeFile st.fs path p.1, st.log ++ [(path, p.1)], st.total_files + 1⟩ from by
        simp [runChapters, hpath]]
      rw [hrun]
      have h1 : st.log ++ [(path, p.1)] ++ log'' = st.log ++ ((path, p.1) :: log'') := by
        simp
      have h2 : st.total_files + 1 + log''.length = st.total_files + (log''.length + 1) := by
        omega
      simp only [List.foldl_cons, List.length_cons, h1, h2]
    · exact List.Forall₂.cons (goodWrite_of_genRange subject chapter meta path g hpath) hfa

/-- The manifest's chapters in traversal order, tagged with their subject. -/
def chaptersOf (manifest : List (String × List (String × ChapterMeta))) :
    List (String × String × ChapterMeta) :=
  manifest.flatMap (fun p => p.2.map (fun c => (p.1, c.1, c.2)))

theorem runSubjects_ok :
    ∀ (m : List (String × List (String × ChapterMeta))) (g : Rng) (st : RunState),
      hasAllFiles m = true →
      ∃ g' log',
        runSubjects m g st =
          .ok (g', ⟨log'.foldl (fun f e => writeFile f e.1 e.2) st.fs,
            st.log ++ log', st.total_files + log'.length⟩) ∧
        List.Forall₂
          (fun (ch : String × String × ChapterMeta) w => GoodWrite ch.1 ch.2.1 ch.2.2 w)
          (chaptersOf m) log' := by
  intro m
  induction m with
  | nil =>
    intro g st _
    exact ⟨g, [], by simp [runSubjects], by simp [chaptersOf]⟩
  | cons hd rest ih =>
    intro g st hall
    rcases hd with ⟨s, chs⟩
    simp only [hasAllFiles, List.all_cons, Bool.and_eq_true] at hall
    obtain ⟨g1, log1, hrc, hfa1⟩ := runChapters_ok s chs g st hall.1
    obtain ⟨g2, log2, hrs, hfa2⟩ := ih g1
      ⟨log1.foldl (fun f e => writeFile f e.1 e.2) st.fs,
        st.log ++ log1, st.total_files + log1.length⟩ hall.2
    refine ⟨g2, log1 ++ log2, ?_, ?_⟩
    · rw [show runSubjects ((s, chs) :: rest) g st =
        (match runChapters s chs g st with
          | .error st' => .error st'
          | .ok (g', st') => runSubjects rest g' st') from rfl]
      simp only [hrc]
      rw [hrs]
      have h1 : st.log ++ log1 ++ log2 = st.log ++ (log1 ++ log2) := by simp
      have h2 : st.total_files + log1.length + log2.length =
          st.total_files + (log1 ++ log2).length := by simp; omega
      simp only [List.foldl_append, h1, h2]
    · rw [show chaptersOf ((s, chs) :: rest) =
        chs.map (fun ch => (s, ch.1, ch.2)) ++ chaptersOf rest from by
          simp [chaptersOf]]
      refine List.rel_append ?_ hfa2
      exact List.forall₂_map_left_iff.mpr hfa1

/-- C3: on a manifest whose chapters all carry a `'file'` key, `main` succeeds
and performs one write per chapter in traversal order: each chapter file gets
an ordered array of exactly 300 records, the `k`-th generated at sequence
index `k` (for `k = 0..299`) with id `make_id subject chapter k` — 1-based id
suffixes `1..300`, monotonically increasing — and the final directory state is
the left fold of plain overwrites of those writes over any initial state. -/
theorem C3_writes_300_records_per_chapter
    (manifest : List (String × List (String × ChapterMeta))) (g : Rng) (fs0 : FileSystem)
    (h : hasAllFiles manifest = true) :
    ∃ g' log,
      pyMain manifest g fs0 =
        .ok (g', ⟨log.foldl (fun f e => writeFile f e.1 e.2) fs0, log, log.length⟩) ∧
      List.Forall₂
        (fun (ch : String × String × ChapterMeta) w => GoodWrite ch.1 ch.2.1 ch.2.2 w)
        (chaptersOf manifest) log := by
  obtain ⟨g', log, hrun, hfa⟩ := runSubjects_ok manifest g ⟨fs0, [], 0⟩ h
  refine ⟨g', log, ?_, hfa⟩
  simpa [pyMain] using hrun

theorem runChapters_append (subject : String) :
    ∀ (l1 l2 : List (String × ChapterMeta)) (g : Rng) (st : RunState),
      runChapters subject (l1 ++ l2) g st =
        match runChapters subject l1 g st with
        | .ok (g', st') => runChapters subject l2 g' st'
        | .error e => .error e := by
  intro l1
  induction l1 with
  | nil => intro l2 g st; rfl
  | cons hd tl ih =>
    intro l2 g st
    rcases hd with ⟨ch, meta⟩
    cases hm : meta.file with
    | none => simp [runChapters, hm]
    | some path => simp [runChapters, hm, ih]

theorem runSubjects_append :
    ∀ (m1 m2 : List (String × List (String × ChapterMeta))) (g : Rng) (st : RunState),
      runSubjects (m1 ++ m2) g st =
        match runSubjects m1 g st with
        | .ok (g', st') => runSubjects m2 g' st'
        | .error e => .error e := by
  intro m1
  induction m1 with
  | nil => intro m2 g st; rfl
  | cons hd rest ih =>
    intro m2 g st
    rcases hd with ⟨s, chs⟩
    cases hr : runChapters s chs g st with
    | error e => simp [runSubjects, hr]
    | ok p => rcases p with ⟨g', st'⟩; simp [runSubjects, hr, ih]

theorem runChapters_error_at (subject chapter : String) (meta : ChapterMeta)
    (ctail : List (String × ChapterMeta)) (g : Rng) (st : RunState)
    (hfile : meta.file = none) :
    runChapters subject ((chapter, meta) :: ctail) g st = .error st := by
  simp [runChapters, hfile]

/-- C7: if one chapter's metadata lacks the `'file'` key, the run raises the
key error at that chapter — before generating or writing anything for it —
and aborts: the final outcome is `error` carrying exactly the state (files on
disk, write log, file count) that the truncated manifest — everything strictly
before the offending chapter in traversal order — produces, so earlier chapter
files remain and no file for the offending or any later chapter is written. -/
theorem C7_missing_file_key_aborts
    (pre : List (String × List (String × ChapterMeta))) (s : String)
    (cpre : List (String × ChapterMeta)) (c : String) (meta : ChapterMeta)
    (ctail : List (String × ChapterMeta))
    (tail : List (String × List (String × ChapterMeta)))
    (g : Rng) (fs0 : FileSystem)
    (hfile : meta.file = none)
    (hpre : hasAllFiles (pre ++ [(s, cpre)]) = true) :
    ∃ g' st,
      pyMain (pre ++ [(s, cpre)]) g fs0 = .ok (g', st) ∧
      pyMain (pre ++ (s, cpre ++ (c, meta) :: ctail) :: tail) g fs0 = .error st := by
  have hpre' : hasAllFiles pre = true ∧ (cpre.all fun x => x.2.file.isSome) = true := by
    simpa [hasAllFiles, List.all_append] using hpre
  obtain ⟨g1, log1, hrs1, _⟩ := runSubjects_ok pre g ⟨fs0, [], 0⟩ hpre'.1
  have hrs1' : runSubjects pre g ⟨fs0, [], 0⟩ =
      .ok (g1, ⟨log1.foldl (fun f e => writeFile f e.1 e.2) fs0, log1, 0 + log1.length⟩) :=
    hrs1
  obtain ⟨g2, log2, hrc, _⟩ := runChapters_ok s cpre g1
    ⟨log1.foldl (fun f e => writeFile f e.1 e.2) fs0, log1, 0 + log1.length⟩ hpre'.2
  have hrc' : runChapters s cpre g1
      ⟨log1.foldl (fun f e => writeFile f e.1 e.2) fs0, log1, 0 + log1.length⟩ =
      .ok (g2, ⟨log2.foldl (fun f e => writeFile f e.1 e.2)
          (log1.foldl (fun f e => writeFile f e.1 e.2) fs0),
        log1 ++ log2, 0 + log1.length + log2.length⟩) := hrc
  refine ⟨g2, ⟨log2.foldl (fun f e => writeFile f e.1 e.2)
      (log1.foldl (fun f e => writeFile f e.1 e.2) fs0),
    log1 ++ log2, 0 + log1.length + log2.length⟩, ?_, ?_⟩
  · unfold pyMain
    rw [runSubjects_append]
    simp only [hrs1']
    simp only [runSubjects]
    simp only [hrc']
  · unfold pyMain
    rw [runSubjects_append]
    simp only [hrs1']
    simp only [runSubjects]
    rw [runChapters_append]
    simp only [hrc']
    rw [runChapters_error_at s c meta ctail g2 _ hfile]

/-- Witness for C3: the hypothesis holds and the theorem applies at a
concrete one-chapter manifest, empty stream and empty directory. -/
theorem C3_witness :
    hasAllFiles [("Biology", [("Cell Biology",
      ⟨some "data/bio.json", some ["Cells, Organelles"]⟩)])] = true ∧
    (∃ g' log,
      pyMain [("Biology", [("Cell Biology",
          ⟨some "data/bio.json", some ["Cells, Organelles"]⟩)])]
          (streamOf []) (fun _ => none) =
        .ok (g', ⟨log.foldl (fun f e => writeFile f e.1 e.2) (fun _ => none),
          log, log.length⟩) ∧
      List.Forall₂
        (fun (ch : String × String × ChapterMeta) w => GoodWrite ch.1 ch.2.1 ch.2.2 w)
        (chaptersOf [("Biology", [("Cell Biology",
          ⟨some "data/bio.json", some ["Cells, Organelles"]⟩)])]) log) :=
  ⟨by decide,
    C3_writes_300_records_per_chapter
      [("Biology", [("Cell Biology", ⟨some "data/bio.json", some ["Cells, Organelles"]⟩)])]
      (streamOf []) (fun _ => none) (by decide)⟩

/-- Witness for C7: a manifest whose single chapter lacks the `'file'` key;
the truncated run writes nothing and the full run aborts with that state. -/
theorem C7_witness :
    (⟨none, none⟩ : ChapterMeta).file = none ∧
    hasAllFiles ([] ++ [("Physics", ([] : List (String × ChapterMeta)))]) = true ∧
    (∃ g' st,
      pyMain ([] ++ [("Physics", ([] : List (String × ChapterMeta)))])
          (streamOf []) (fun _ => none) = .ok (g', st) ∧
      pyMain ([] ++ ("Physics",
          ([] : List (String × ChapterMeta)) ++ ("Kinematics", (⟨none, none⟩ : ChapterMeta)) :: []) :: [])
          (streamOf []) (fun _ => none) = .error st) :=
  ⟨rfl, by decide,
    C7_missing_file_key_aborts [] "Physics" [] "Kinematics" ⟨none, none⟩ [] []
      (streamOf []) (fun _ => none) rfl (by decide)⟩
